import Mathlib

namespace TfAws

/-- Characters of the concatenation of two strings. -/
theorem string_data_append (a b : String) : (a ++ b).data = a.data ++ b.data := rfl

/-- Split a character list at every occurrence of `sep`, mirroring Go's
`strings.Split`: splitting the empty string yields one empty field. -/
def splitOnChar (sep : Char) : List Char → List (List Char)
  | [] => [[]]
  | c :: rest =>
    if c = sep then
      [] :: splitOnChar sep rest
    else
      match splitOnChar sep rest with
      | [] => [[c]]
      | h :: t => (c :: h) :: t

example : splitOnChar ',' "a,b".data = ["a".data, "b".data] := by decide

example : splitOnChar ',' "".data = ["".data] := by decide

example : splitOnChar ',' ",".data = [[], []] := by decide

/-! ## ECS task-set composite identity (src/unnamed/part_003)

`resourceTaskSetCreate` stores the identity as
`fmt.Sprintf("%s,%s,%s", taskSetId, service, cluster)`;
`TaskSetParseID` splits on `","` and rejects a field count other than 3
or any empty field. -/

/-- The identity string written by `resourceTaskSetCreate` (line 354):
`fmt.Sprintf("%s,%s,%s", taskSetId, service, cluster)`. -/
def taskSetFormatID (taskSetId service cluster : String) : String :=
  taskSetId ++ "," ++ service ++ "," ++ cluster

/-- The malformed-identity error message of `TaskSetParseID`. -/
def taskSetMalformedMsg (id : String) : String :=
  "unexpected format of ID (" ++ id ++ "), expected TASK_SET_ID,SERVICE,CLUSTER"

/-- `TaskSetParseID` (part_003 lines 564-572): split the identity on `","`;
if the field count is not 3 or any field is empty, fail with the
malformed-identity error, else return the three fields. -/
def TaskSetParseID (id : String) : Except String (String × String × String) :=
  match splitOnChar ',' id.data with
  | [a, b, c] =>
    if a.isEmpty || b.isEmpty || c.isEmpty then
      .error (taskSetMalformedMsg id)
    else
      .ok (⟨a⟩, ⟨b⟩, ⟨c⟩)
  | _ => .error (taskSetMalformedMsg id)

example : TaskSetParseID (taskSetFormatID "ts" "svc" "cl") = .ok ("ts", "svc", "cl") := rfl

example : (TaskSetParseID "a,b").isOk = false := by decide

example : (TaskSetParseID "a,,c").isOk = false := by decide

/-- Splitting a list that starts with a separator-free prefix `a` followed by
the separator peels off exactly `a` as the first field. -/
theorem splitOnChar_append_sep (sep : Char) (a rest : List Char)
    (ha : ∀ ch ∈ a, ch ≠ sep) :
    splitOnChar sep (a ++ sep :: rest) = a :: splitOnChar sep rest := by
  induction a with
  | nil => simp [splitOnChar]
  | cons c a ih =>
    have hc : c ≠ sep := ha c (List.mem_cons_self c a)
    have ha' : ∀ ch ∈ a, ch ≠ sep := fun ch hch => ha ch (List.mem_cons_of_mem c hch)
    simp only [List.cons_append, splitOnChar, if_neg hc]
    rw [show List.append a (sep :: rest) = a ++ sep :: rest from rfl, ih ha']

/-- Splitting a separator-free list yields that list as the only field. -/
theorem splitOnChar_no_sep (sep : Char) (a : List Char)
    (ha : ∀ ch ∈ a, ch ≠ sep) :
    splitOnChar sep a = [a] := by
  induction a with
  | nil => simp [splitOnChar]
  | cons c a ih =>
    have hc : c ≠ sep := ha c (List.mem_cons_self c a)
    have ha' : ∀ ch ∈ a, ch ≠ sep := fun ch hch => ha ch (List.mem_cons_of_mem c hch)
    simp only [splitOnChar, if_neg hc, ih ha']

/-- The characters of a formatted task-set identity are the three parts
joined by commas. -/
theorem taskSetFormatID_data (x y z : String) :
    (taskSetFormatID x y z).data = x.data ++ ',' :: (y.data ++ ',' :: z.data) := by
  have h1 : (",").data = [','] := rfl
  simp [taskSetFormatID, string_data_append, h1]

/-- Parsing a formatted identity whose parts are non-empty and comma-free
recovers exactly the parts. -/
theorem taskSetParseID_roundtrip (x y z : String)
    (hx : x ≠ "") (hy : y ≠ "") (hz : z ≠ "")
    (cx : ∀ ch ∈ x.data, ch ≠ ',') (cy : ∀ ch ∈ y.data, ch ≠ ',')
    (cz : ∀ ch ∈ z.data, ch ≠ ',') :
    TaskSetParseID (taskSetFormatID x y z) = .ok (x, y, z) := by
  have hx' : x.data.isEmpty = false := by
    rcases x with ⟨l⟩
    cases l with
    | nil => exact absurd rfl hx
    | cons c t => rfl
  have hy' : y.data.isEmpty = false := by
    rcases y with ⟨l⟩
    cases l with
    | nil => exact absurd rfl hy
    | cons c t => rfl
  have hz' : z.data.isEmpty = false := by
    rcases z with ⟨l⟩
    cases l with
    | nil => exact absurd rfl hz
    | cons c t => rfl
  unfold TaskSetParseID
  rw [taskSetFormatID_data, splitOnChar_append_sep ',' x.data _ cx,
    splitOnChar_append_sep ',' y.data _ cy, splitOnChar_no_sep ',' z.data cz]
  simp [hx', hy', hz']

/-- Parsing a string whose comma-separated field count is not 3, or that has
an empty field, yields the malformed-identity error. -/
theorem taskSetParseID_malformed (id : String)
    (h : (splitOnChar ',' id.data).length ≠ 3 ∨ [] ∈ splitOnChar ',' id.data) :
    TaskSetParseID id = .error (taskSetMalformedMsg id) := by
  unfold TaskSetParseID
  split
  · rename_i a b c heq
    rw [heq] at h
    rcases h with h | h
    · exact absurd rfl h
    · have : a.isEmpty || b.isEmpty || c.isEmpty := by
        rcases List.mem_cons.mp h with h | h
        · simp [h.symm]
        · rcases List.mem_cons.mp h with h | h
          · simp [h.symm]
          · simp only [List.mem_singleton] at h
            simp [h.symm]
      rw [if_pos this]
  · rfl

/-- C2 (amended): for every composite task-set identity built from non-empty
parts that do not themselves contain the comma delimiter, parsing the
formatted identity returns exactly the original three parts; and parsing any
string whose comma-separated field count is not exactly three, or that has an
empty field, fails with the malformed-identity error. -/
theorem taskSet_identity_roundtrip_claim :
    (∀ x y z : String, x ≠ "" → y ≠ "" → z ≠ "" →
      (∀ ch ∈ x.data, ch ≠ ',') → (∀ ch ∈ y.data, ch ≠ ',') →
      (∀ ch ∈ z.data, ch ≠ ',') →
      TaskSetParseID (taskSetFormatID x y z) = .ok (x, y, z)) ∧
    (∀ id : String,
      (splitOnChar ',' id.data).length ≠ 3 ∨ [] ∈ splitOnChar ',' id.data →
      TaskSetParseID id = .error (taskSetMalformedMsg id)) :=
  ⟨taskSetParseID_roundtrip, taskSetParseID_malformed⟩

/-- C2 witness: the round trip at concrete comma-free parts, and the
malformed error on a concrete identity with an empty field. -/
theorem taskSet_identity_roundtrip_claim_witness :
    TaskSetParseID (taskSetFormatID "ts" "svc" "cl") = .ok ("ts", "svc", "cl") ∧
    TaskSetParseID "a,,c" = .error (taskSetMalformedMsg "a,,c") :=
  ⟨taskSet_identity_roundtrip_claim.1 "ts" "svc" "cl" (by decide) (by decide)
    (by decide) (by decide) (by decide) (by decide),
   taskSet_identity_roundtrip_claim.2 "a,,c" (by decide)⟩

/-- C2 counterexample: the claim as stated fails when a part contains the
comma delimiter: formatting `("a,b", "s", "c")` yields `"a,b,s,c"`, which
splits into four fields, so parsing does not return the original parts. -/
theorem taskSet_identity_roundtrip_counterexample :
    TaskSetParseID (taskSetFormatID "a,b" "s" "c") ≠ Except.ok ("a,b", "s", "c") := by
  intro h
  exact Except.noConfusion h

/-! ## Eventual-Consistency Finder
(`FindRepository` / `FindRepositoryByName`, repository.go lines 315-359) -/

/-- An ECR repository record as returned by `DescribeRepositories`. -/
structure Repository where
  repositoryName : String
  repositoryArn : String
deriving DecidableEq

/-- Result of one `DescribeRepositories` remote call. A successful call
carries the `Repositories` slice, whose entries are pointers and may be nil
(`none`); a nil output struct behaves identically to an empty slice in
`FindRepository` and is folded into `ok []`. -/
inductive DescribeResult where
  | errCode (code : String)
  | ok (repositories : List (Option Repository))
deriving DecidableEq

/-- AWS error code checked by `tfawserr.ErrCodeEquals` in `FindRepository`
and `resourceRepositoryDelete`. -/
def repositoryNotFoundException : String := "RepositoryNotFoundException"

/-- Errors produced by the finder: `notFound` models
`resource.NotFoundError`, `emptyResult` models
`tfresource.NewEmptyResultError`, `tooManyResults` models
`tfresource.NewTooManyResultsError` with its count, and `other` re-raises any
other remote error code. -/
inductive FindErr where
  | notFound
  | emptyResult
  | tooManyResults (count : Nat)
  | other (code : String)
deriving DecidableEq

/-- Modelled from the spec: the caller-side `tfresource.NotFound`
classification (the `tfresource` package is not part of this source set).
Per §4.2 both a remote not-found error code and a zero-record result are
classified as confirmed absence (`NotFound`); an ambiguous multi-match is
terminal. -/
def FindErr.isNotFoundKind : FindErr → Bool
  | .notFound => true
  | .emptyResult => true
  | _ => false

/-- `FindRepository` (repository.go lines 336-359): a remote error with the
repository-not-found code becomes `notFound`; any other error is re-raised;
a nil/empty repository slice or a nil first entry becomes the empty-result
error; more than one returned record becomes the too-many-results error;
otherwise the single record is returned. -/
def FindRepository (resp : DescribeResult) : Except FindErr Repository :=
  match resp with
  | .errCode code =>
    if code = repositoryNotFoundException then .error .notFound
    else .error (.other code)
  | .ok repositories =>
    match repositories with
    | [] => .error .emptyResult
    | none :: _ => .error .emptyResult
    | some r :: rest =>
      if rest.length + 1 > 1 then .error (.tooManyResults (rest.length + 1))
      else .ok r

/-- `FindRepositoryByName` (repository.go lines 315-334): describe by name,
then apply the exact secondary name check; a mismatching single record is
reported as `notFound` (eventual-consistency check). -/
def FindRepositoryByName (name : String) (resp : DescribeResult) :
    Except FindErr Repository :=
  match FindRepository resp with
  | .error e => .error e
  | .ok output =>
    if output.repositoryName ≠ name then .error .notFound
    else .ok output

/-- `FindRepositoryByName` issues exactly one `DescribeRepositories` remote
call: the remote is modelled as a stream of responses indexed by call number,
the body consumes only response 0, and the second component counts the
remote calls made. -/
def FindRepositoryByNameTraced (name : String) (remote : Nat → DescribeResult) :
    Except FindErr Repository × Nat :=
  (FindRepositoryByName name (remote 0), 1)

/-- C1: `FindRepositoryByName` classifies a describe-by-name call three ways:
a remote not-found error code, a zero-record result, or a single record
failing the exact secondary name check all yield a NotFound-kind error; a
single record passing the check is returned; more than one record yields the
too-many-results terminal error after exactly one remote call. -/
theorem finder_three_way_classification :
    (∀ name : String,
      FindRepositoryByName name (.errCode repositoryNotFoundException)
        = .error .notFound ∧ FindErr.notFound.isNotFoundKind = true) ∧
    (∀ name : String,
      FindRepositoryByName name (.ok []) = .error .emptyResult ∧
      FindErr.emptyResult.isNotFoundKind = true) ∧
    (∀ (name : String) (r : Repository), r.repositoryName ≠ name →
      FindRepositoryByName name (.ok [some r]) = .error .notFound) ∧
    (∀ (name : String) (r : Repository), r.repositoryName = name →
      FindRepositoryByName name (.ok [some r]) = .ok r) ∧
    (∀ (name : String) (r : Repository) (rest : List (Option Repository)),
      rest ≠ [] →
      ∀ remote : Nat → DescribeResult, remote 0 = .ok (some r :: rest) →
      FindRepositoryByNameTraced name remote
        = (.error (.tooManyResults (rest.length + 1)), 1)) := by
  refine ⟨fun name => ⟨?_, rfl⟩, fun name => ⟨rfl, rfl⟩, ?_, ?_, ?_⟩
  · simp [FindRepositoryByName, FindRepository, repositoryNotFoundException]
  · intro name r h
    simp [FindRepositoryByName, FindRepository, h]
  · intro name r h
    simp [FindRepositoryByName, FindRepository, h]
  · intro name r rest hrest remote h0
    have hlen : rest.length + 1 > 1 :=
      Nat.succ_lt_succ (List.length_pos.mpr hrest)
    simp [FindRepositoryByNameTraced, FindRepositoryByName, FindRepository, h0, hlen]

/-- C1 witness: the classification at concrete inputs — a mismatching single
record, a matching single record, and a two-record response (one remote
call). -/
theorem finder_three_way_classification_witness :
    FindRepositoryByName "x" (.ok [some ⟨"y", "arn"⟩]) = .error .notFound ∧
    FindRepositoryByName "x" (.ok [some ⟨"x", "arn"⟩]) = .ok ⟨"x", "arn"⟩ ∧
    FindRepositoryByNameTraced "x" (fun _ => .ok [some ⟨"x", "arn"⟩, none])
      = (.error (.tooManyResults 2), 1) :=
  ⟨finder_three_way_classification.2.2.1 "x" ⟨"y", "arn"⟩ (by decide),
   finder_three_way_classification.2.2.2.1 "x" ⟨"x", "arn"⟩ rfl,
   finder_three_way_classification.2.2.2.2 "x" ⟨"x", "arn"⟩ [none] (by decide)
     (fun _ => .ok [some ⟨"x", "arn"⟩, none]) rfl⟩

/-! ## Tag model

The `tftags.KeyValueTags` operations live outside this source set, so they
are modelled from the spec (§3 TagSet, §4.1 Tag Merge Model). Tag sets are
association lists with first-match lookup. -/

/-- A tag set: keys mapped to values. -/
abbrev TagList := List (String × String)

/-- Keys of a tag set. -/
def tagKeys (tags : TagList) : List String := tags.map Prod.fst

/-- Whether a character list begins with the reserved `aws:` marker. -/
def startsWithAws : List Char → Bool
  | 'a' :: 'w' :: 's' :: ':' :: _ => true
  | _ => false

/-- Modelled from the spec: the ignore predicate of
`KeyValueTags.IgnoreAWS` — tags injected by the cloud platform itself carry
the reserved `aws:` key marker. -/
def isAWSTagKey (k : String) : Bool := startsWithAws k.data

/-- Modelled from the spec: `KeyValueTags.IgnoreAWS` removes
platform-reserved keys from a tag set. -/
def ignoreAWS (tags : TagList) : TagList :=
  tags.filter (fun kv => !(isAWSTagKey kv.1))

/-- Modelled from the spec: `KeyValueTags.IgnoreConfig` removes keys matched
by the deployment-configured ignore predicate. -/
def ignoreConfig (pred : String → Bool) (tags : TagList) : TagList :=
  tags.filter (fun kv => !(pred kv.1))

/-- Modelled from the spec: `DefaultConfig.MergeTags` — the effective tag
set is default ∪ resource with resource precedence on key collision. -/
def mergeTags (defaults resource : TagList) : TagList :=
  resource ++ defaults.filter (fun kv => decide (resource.lookup kv.1 = none))

/-- Modelled from the spec: `KeyValueTags.RemoveDefaultConfig` removes pairs
matching the default-tag configuration exactly (same key and value), leaving
per-resource overrides in place. -/
def removeDefaultConfig (defaults tags : TagList) : TagList :=
  tags.filter (fun kv => !decide (defaults.lookup kv.1 = some kv.2))

/-- Modelled from the spec: `KeyValueTags.Removed` — pairs of the old set
whose key is absent from the new set. -/
def removedTags (old new : TagList) : TagList :=
  old.filter (fun kv => decide (new.lookup kv.1 = none))

/-- Modelled from the spec: `KeyValueTags.Updated` — pairs of the new set
whose value differs from the old set or whose key is entirely new. -/
def updatedTags (old new : TagList) : TagList :=
  new.filter (fun kv => !decide (old.lookup kv.1 = some kv.2))

/-- No platform-reserved key survives the `IgnoreAWS` filter. -/
theorem ignoreAWS_no_aws_key (tags : TagList) :
    ∀ kv ∈ ignoreAWS tags, isAWSTagKey kv.1 = false := by
  intro kv hkv
  have := List.of_mem_filter hkv
  simpa using this

/-! ## SSM `UpdateTags` (src/internal/service/ssm/tags_gen.go lines 64-97) -/

/-- A remote tagging call issued by `UpdateTags`. -/
inductive SsmTagCall where
  | removeTags (keys : List String)
  | addTags (tags : TagList)
deriving DecidableEq

/-- Remote outcomes for the two tagging calls `UpdateTags` may issue. -/
structure SsmEnv where
  removeErr : Option String
  addErr : Option String

/-- `UpdateTags` (ssm/tags_gen.go lines 64-97): if any keys were removed,
issue `RemoveTagsFromResource` with the removed keys after `IgnoreAWS`;
on failure stop with an untagging error. Then, if any pairs were updated,
issue `AddTagsToResource` with the updated pairs after `IgnoreAWS`; on
failure stop with a tagging error. -/
def ssmUpdateTags (env : SsmEnv) (identifier : String) (oldTags newTags : TagList) :
    List SsmTagCall × Except String Unit :=
  let removed := removedTags oldTags newTags
  let updated := updatedTags oldTags newTags
  let calls1 : List SsmTagCall :=
    if removed.length > 0 then [.removeTags (tagKeys (ignoreAWS removed))] else []
  let res1 : Except String Unit :=
    if removed.length > 0 then
      match env.removeErr with
      | some e => .error ("untagging resource (" ++ identifier ++ "): " ++ e)
      | none => .ok ()
    else .ok ()
  match res1 with
  | .error e => (calls1, .error e)
  | .ok _ =>
    if updated.length > 0 then
      (calls1 ++ [.addTags (ignoreAWS updated)],
       match env.addErr with
       | some e => .error ("tagging resource (" ++ identifier ++ "): " ++ e)
       | none => .ok ())
    else (calls1, .ok ())

/-! ## Partition-capability degradation on create
(ECR `resourceRepositoryCreate`, repository.go lines 111-167; ECS
`resourceTaskSetCreate`, part_003 lines 287-379) -/

/-- An AWS error as classified at the call site: its error code, its
message, and whether `verify.ErrorISOUnsupported` holds for it in the
current partition. `verify` is not in this source set, so that classifier's
verdict is modelled from the spec as a per-error field (the
partition-unsupported error signature). -/
structure AwsErr where
  code : String
  msg : String
  isoUnsupported : Bool
deriving DecidableEq

/-- Outcome of a remote create call: the created resource's generated
identifier and ARN, or an error. -/
inductive CreateCallResult where
  | ok (id : String) (arn : String)
  | err (e : AwsErr)

/-- Terminal outcome of a CRUD entry point: an error diagnostic, or success
proceeding into the trailing Read. -/
inductive CrudResult where
  | errorDiag (msg : String)
  | okRead
deriving DecidableEq

/-- A remote call issued by `resourceRepositoryCreate`: the create call with
its embedded `Tags` field (`none` when the field is omitted), the deferred
`UpdateTags` call, or the trailing read. -/
inductive EcrCall where
  | createRepository (tags : Option TagList)
  | updateTags (newTags : TagList)
  | read
deriving DecidableEq

/-- Whether an `EcrCall` is a create call. -/
def EcrCall.isCreate : EcrCall → Bool
  | .createRepository _ => true
  | _ => false

/-- Environment of one `resourceRepositoryCreate` invocation: the partition
identity, the configured default tags, the resource's own `tags` argument,
the requested name, and the remote outcomes, keyed by request shape for the
create call. -/
structure EcrCreateEnv where
  partitionIsDefault : Bool
  defaultTags : TagList
  resourceTags : TagList
  name : String
  createResult : Option TagList → CreateCallResult
  updateTagsErr : Option AwsErr

/-- `resourceRepositoryCreate` (repository.go lines 111-167): merge default
and resource tags; embed them (after `IgnoreAWS`) in the create call when
non-empty; if the create fails with the partition-unsupported signature, the
`Tags` field was set and the partition is not the default AWS partition,
retry the same create once with `Tags` stripped; on success, if tags were
stripped, apply them via a deferred `UpdateTags` call, downgrading a
partition-unsupported failure of that call to a warning when the resource's
own tag map is empty; finally run Read. -/
def resourceRepositoryCreate (env : EcrCreateEnv) : List EcrCall × CrudResult :=
  let tags := mergeTags env.defaultTags env.resourceTags
  let inputTags : Option TagList :=
    if tags.length > 0 then some (ignoreAWS tags) else none
  let r1 := env.createResult inputTags
  let retried : Bool :=
    match r1, inputTags with
    | .err e, some _ => !env.partitionIsDefault && e.isoUnsupported
    | _, _ => false
  let calls : List EcrCall :=
    if retried then [.createRepository inputTags, .createRepository none]
    else [.createRepository inputTags]
  let finalInputTags : Option TagList := if retried then none else inputTags
  let r := if retried then env.createResult none else r1
  match r with
  | .err e =>
    (calls, .errorDiag ("creating ECR Repository (" ++ env.name ++ "): " ++ e.msg))
  | .ok repoName _repoArn =>
    if finalInputTags.isNone && tags.length > 0 && !env.partitionIsDefault then
      let calls2 := calls ++ [.updateTags tags]
      match env.updateTagsErr with
      | some e =>
        if env.resourceTags.length = 0 && e.isoUnsupported then
          (calls2 ++ [.read], .okRead)
        else
          (calls2, .errorDiag
            ("adding tags after create for ECR Repository (" ++ repoName ++ "): " ++ e.msg))
      | none => (calls2 ++ [.read], .okRead)
    else (calls ++ [.read], .okRead)

/-- A remote call issued by `resourceTaskSetCreate`: the create call (via
`retryTaskSetCreate`) with its embedded `Tags` field, the stability wait,
the deferred `UpdateTags` call, or the trailing read. -/
inductive EcsCall where
  | createTaskSet (tags : Option TagList)
  | waitStable
  | updateTags (newTags : TagList)
  | read
deriving DecidableEq

/-- Whether an `EcsCall` is a create call. -/
def EcsCall.isCreate : EcsCall → Bool
  | .createTaskSet _ => true
  | _ => false

/-- Environment of one `resourceTaskSetCreate` invocation. -/
structure EcsCreateEnv where
  defaultTags : TagList
  resourceTags : TagList
  service : String
  cluster : String
  createResult : Option TagList → CreateCallResult
  waitUntilStable : Bool
  waitErr : Option AwsErr
  updateTagsErr : Option AwsErr

/-- `resourceTaskSetCreate` (part_003 lines 287-379): merge default and
resource tags; embed them (after `IgnoreAWS`) in the create call when
non-empty; if the create fails with the partition-unsupported signature and
the `Tags` field was set, retry the create once with `Tags` stripped (no
partition condition here, unlike ECR); on success store the composite
identity, optionally wait until stable, then, if tags were stripped, apply
them via a deferred `UpdateTags` call, downgrading a partition-unsupported
failure of that call to a warning when the resource's own tag map is empty;
finally run Read. -/
def resourceTaskSetCreate (env : EcsCreateEnv) : List EcsCall × CrudResult :=
  let tags := mergeTags env.defaultTags env.resourceTags
  let inputTags : Option TagList :=
    if tags.length > 0 then some (ignoreAWS tags) else none
  let r1 := env.createResult inputTags
  let retried : Bool :=
    match r1, inputTags with
    | .err e, some _ => e.isoUnsupported
    | _, _ => false
  let calls : List EcsCall :=
    if retried then [.createTaskSet inputTags, .createTaskSet none]
    else [.createTaskSet inputTags]
  let finalInputTags : Option TagList := if retried then none else inputTags
  let r := if retried then env.createResult none else r1
  match r with
  | .err e => (calls, .errorDiag ("creating ECS TaskSet: " ++ e.msg))
  | .ok taskSetId _arn =>
    let id := taskSetFormatID taskSetId env.service env.cluster
    let calls2 : List EcsCall :=
      if env.waitUntilStable then calls ++ [.waitStable] else calls
    let waitFailure : Option String :=
      if env.waitUntilStable then
        match env.waitErr with
        | some e =>
          some ("waiting for ECS Task Set (" ++ id ++ ") to be stable: " ++ e.msg)
        | none => none
      else none
    match waitFailure with
    | some m => (calls2, .errorDiag m)
    | none =>
      if finalInputTags.isNone && tags.length > 0 then
        let calls3 := calls2 ++ [.updateTags tags]
        match env.updateTagsErr with
        | some e =>
          if env.resourceTags.length = 0 && e.isoUnsupported then
            (calls3 ++ [.read], .okRead)
          else
            (calls3, .errorDiag
              ("ECS tagging failed adding tags after create for Task Set ("
                ++ id ++ "): " ++ e.msg))
        | none => (calls3 ++ [.read], .okRead)
      else (calls2 ++ [.read], .okRead)

/-- C3: when a create call that embeds tags fails with the
partition-unsupported signature (and, for ECR, the partition is not the
default AWS partition), the create is retried exactly once with the tags
stripped, and the merged tags are remembered for a deferred `UpdateTags`
call issued after the create. -/
theorem create_tag_degradation_retry :
    (∀ (env : EcrCreateEnv) (e : AwsErr) (cid carn : String),
      (mergeTags env.defaultTags env.resourceTags).length > 0 →
      env.createResult
        (some (ignoreAWS (mergeTags env.defaultTags env.resourceTags))) = .err e →
      e.isoUnsupported = true →
      env.partitionIsDefault = false →
      env.createResult none = .ok cid carn →
      (resourceRepositoryCreate env).1.take 3 =
        [.createRepository
          (some (ignoreAWS (mergeTags env.defaultTags env.resourceTags))),
         .createRepository none,
         .updateTags (mergeTags env.defaultTags env.resourceTags)] ∧
      (resourceRepositoryCreate env).1.countP EcrCall.isCreate = 2) ∧
    (∀ (env : EcsCreateEnv) (e : AwsErr) (cid carn : String),
      (mergeTags env.defaultTags env.resourceTags).length > 0 →
      env.createResult
        (some (ignoreAWS (mergeTags env.defaultTags env.resourceTags))) = .err e →
      e.isoUnsupported = true →
      env.waitUntilStable = false →
      env.createResult none = .ok cid carn →
      (resourceTaskSetCreate env).1.take 3 =
        [.createTaskSet
          (some (ignoreAWS (mergeTags env.defaultTags env.resourceTags))),
         .createTaskSet none,
         .updateTags (mergeTags env.defaultTags env.resourceTags)] ∧
      (resourceTaskSetCreate env).1.countP EcsCall.isCreate = 2) := by
  constructor
  · intro env e cid carn hlen hcw hiso hpart hco
    simp only [resourceRepositoryCreate, if_pos hlen, hcw, hiso, hpart, hco,
      Bool.not_false, Bool.true_and, Bool.and_true, if_true]
    cases hupd : env.updateTagsErr with
    | none => simp [hlen, List.countP_cons, List.countP_nil, EcrCall.isCreate]
    | some u =>
      by_cases hc : env.resourceTags = [] ∧ u.isoUnsupported = true
      · rw [hc.1] at hlen
        simp [hc, hlen, List.countP_cons, List.countP_nil, EcrCall.isCreate]
      · simp [hc, hlen, List.countP_cons, List.countP_nil, EcrCall.isCreate]
  · intro env e cid carn hlen hcw hiso hwait hco
    simp only [resourceTaskSetCreate, if_pos hlen, hcw, hiso, hwait, hco,
      Bool.not_false, Bool.true_and, Bool.and_true, if_true, if_false,
      Bool.false_eq_true]
    cases hupd : env.updateTagsErr with
    | none => simp [hlen, List.countP_cons, List.countP_nil, EcsCall.isCreate]
    | some u =>
      by_cases hc : env.resourceTags = [] ∧ u.isoUnsupported = true
      · rw [hc.1] at hlen
        simp [hc, hlen, List.countP_cons, List.countP_nil, EcsCall.isCreate]
      · simp [hc, hlen, List.countP_cons, List.countP_nil, EcsCall.isCreate]

/-- C3 witness: the degradation retry at a concrete environment — default
tag `env=prod`, resource tag `team=infra`, a non-default partition, a
first create failing with the unsupported signature and a second create
succeeding. -/
theorem create_tag_degradation_retry_witness :
    (resourceRepositoryCreate
      ⟨false, [("env", "prod")], [("team", "infra")], "repo",
        fun t =>
          match t with
          | some _ => .err ⟨"UnsupportedOperationException", "no tags", true⟩
          | none => .ok "repo" "arn", none⟩).1.take 3 =
      [.createRepository
        (some (ignoreAWS (mergeTags [("env", "prod")] [("team", "infra")]))),
       .createRepository none,
       .updateTags (mergeTags [("env", "prod")] [("team", "infra")])] ∧
    (resourceRepositoryCreate
      ⟨false, [("env", "prod")], [("team", "infra")], "repo",
        fun t =>
          match t with
          | some _ => .err ⟨"UnsupportedOperationException", "no tags", true⟩
          | none => .ok "repo" "arn", none⟩).1.countP EcrCall.isCreate = 2 :=
  create_tag_degradation_retry.1
    ⟨false, [("env", "prod")], [("team", "infra")], "repo",
      fun t =>
        match t with
        | some _ => .err ⟨"UnsupportedOperationException", "no tags", true⟩
        | none => .ok "repo" "arn", none⟩
    ⟨"UnsupportedOperationException", "no tags", true⟩ "repo" "arn"
    (by decide) rfl rfl rfl rfl

/-- C4: when the deferred post-create tagging call fails with the
partition-unsupported signature, the failure is downgraded to a warning and
Create proceeds to Read if the resource's own tag map is empty (tags were
default-derived only), and is surfaced as a hard Create error if the user
explicitly requested resource tags. -/
theorem deferred_tagging_failure_policy :
    (∀ (env : EcrCreateEnv) (e u : AwsErr) (cid carn : String),
      (mergeTags env.defaultTags env.resourceTags).length > 0 →
      env.createResult
        (some (ignoreAWS (mergeTags env.defaultTags env.resourceTags))) = .err e →
      e.isoUnsupported = true →
      env.partitionIsDefault = false →
      env.createResult none = .ok cid carn →
      env.updateTagsErr = some u →
      u.isoUnsupported = true →
      (env.resourceTags = [] → (resourceRepositoryCreate env).2 = .okRead) ∧
      (env.resourceTags ≠ [] → (resourceRepositoryCreate env).2 =
        .errorDiag
          ("adding tags after create for ECR Repository (" ++ cid ++ "): " ++ u.msg))) ∧
    (∀ (env : EcsCreateEnv) (e u : AwsErr) (cid carn : String),
      (mergeTags env.defaultTags env.resourceTags).length > 0 →
      env.createResult
        (some (ignoreAWS (mergeTags env.defaultTags env.resourceTags))) = .err e →
      e.isoUnsupported = true →
      env.waitUntilStable = false →
      env.createResult none = .ok cid carn →
      env.updateTagsErr = some u →
      u.isoUnsupported = true →
      (env.resourceTags = [] → (resourceTaskSetCreate env).2 = .okRead) ∧
      (env.resourceTags ≠ [] → (resourceTaskSetCreate env).2 =
        .errorDiag
          ("ECS tagging failed adding tags after create for Task Set ("
            ++ taskSetFormatID cid env.service env.cluster ++ "): " ++ u.msg))) := by
  constructor
  · intro env e u cid carn hlen hcw hiso hpart hco hupd hisoU
    constructor
    · intro hr
      rw [hr] at hlen hcw
      simp only [resourceRepositoryCreate, hr, if_pos hlen, hcw, hiso, hpart, hco,
        hupd, Bool.not_false, Bool.true_and, Bool.and_true, if_true]
      simp [hlen, hisoU]
    · intro hr
      simp only [resourceRepositoryCreate, if_pos hlen, hcw, hiso, hpart, hco, hupd,
        Bool.not_false, Bool.true_and, Bool.and_true, if_true]
      simp [hr, hlen, hisoU]
  · intro env e u cid carn hlen hcw hiso hwait hco hupd hisoU
    constructor
    · intro hr
      rw [hr] at hlen hcw
      simp only [resourceTaskSetCreate, hr, if_pos hlen, hcw, hiso, hwait, hco,
        hupd, Bool.not_false, Bool.true_and, Bool.and_true, if_true, if_false,
        Bool.false_eq_true]
      simp [hlen, hisoU]
    · intro hr
      simp only [resourceTaskSetCreate, if_pos hlen, hcw, hiso, hwait, hco, hupd,
        Bool.not_false, Bool.true_and, Bool.and_true, if_true, if_false,
        Bool.false_eq_true]
      simp [hr, hlen, hisoU]

/-- C4 witness: the warning-downgrade at a concrete environment with
default-derived tags only, and the hard error at a concrete environment
with explicit resource tags. -/
theorem deferred_tagging_failure_policy_witness :
    (resourceRepositoryCreate
      ⟨false, [("env", "prod")], [], "repo",
        fun t =>
          match t with
          | some _ => .err ⟨"UnsupportedOperationException", "no tags", true⟩
          | none => .ok "repo" "arn",
        some ⟨"UnsupportedOperationException", "no tagging", true⟩⟩).2 = .okRead ∧
    (resourceRepositoryCreate
      ⟨false, [("env", "prod")], [("team", "infra")], "repo",
        fun t =>
          match t with
          | some _ => .err ⟨"UnsupportedOperationException", "no tags", true⟩
          | none => .ok "repo" "arn",
        some ⟨"UnsupportedOperationException", "no tagging", true⟩⟩).2 =
      .errorDiag ("adding tags after create for ECR Repository (repo): no tagging") :=
  ⟨(deferred_tagging_failure_policy.1
      ⟨false, [("env", "prod")], [], "repo",
        fun t =>
          match t with
          | some _ => .err ⟨"UnsupportedOperationException", "no tags", true⟩
          | none => .ok "repo" "arn",
        some ⟨"UnsupportedOperationException", "no tagging", true⟩⟩
      ⟨"UnsupportedOperationException", "no tags", true⟩
      ⟨"UnsupportedOperationException", "no tagging", true⟩ "repo" "arn"
      (by decide) rfl rfl rfl rfl rfl rfl).1 rfl,
   (deferred_tagging_failure_policy.1
      ⟨false, [("env", "prod")], [("team", "infra")], "repo",
        fun t =>
          match t with
          | some _ => .err ⟨"UnsupportedOperationException", "no tags", true⟩
          | none => .ok "repo" "arn",
        some ⟨"UnsupportedOperationException", "no tagging", true⟩⟩
      ⟨"UnsupportedOperationException", "no tags", true⟩
      ⟨"UnsupportedOperationException", "no tagging", true⟩ "repo" "arn"
      (by decide) rfl rfl rfl rfl rfl rfl).2 (by decide)⟩

/-! ## Tag invariants (C8) -/

/-- Keys surviving the `IgnoreAWS` filter are never platform-reserved. -/
theorem tagKeys_ignoreAWS_no_aws (tags : TagList) :
    ∀ k ∈ tagKeys (ignoreAWS tags), isAWSTagKey k = false := by
  intro k hk
  rcases List.mem_map.mp hk with ⟨kv, hkv, rfl⟩
  exact ignoreAWS_no_aws_key tags kv hkv

/-- Association-list lookup on a nodup-keyed tag set finds a member's
value. -/
theorem lookup_eq_some_of_mem_nodup {l : TagList} {k v : String}
    (hnd : (l.map Prod.fst).Nodup) (hm : (k, v) ∈ l) : l.lookup k = some v := by
  induction l with
  | nil => cases hm
  | cons kv t ih =>
    obtain ⟨k1, v1⟩ := kv
    rcases List.mem_cons.mp hm with h | h
    · injection h with h1 h2
      subst h1
      subst h2
      simp [List.lookup]
    · have hk : k ∈ t.map Prod.fst := List.mem_map.mpr ⟨(k, v), h, rfl⟩
      rw [List.map_cons] at hnd
      have hnd' := List.nodup_cons.mp hnd
      have hne : k1 ≠ k := fun he => hnd'.1 (he ▸ hk)
      have hb : (k == k1) = false := beq_eq_false_iff_ne.mpr (Ne.symm hne)
      simp only [List.lookup, hb]
      exact ih hnd'.2 h

/-- Every create call issued by `resourceRepositoryCreate` carries either no
`Tags` field or the `IgnoreAWS`-filtered merged tags. -/
theorem ecrCreate_call_shapes (env : EcrCreateEnv) :
    ∀ c ∈ (resourceRepositoryCreate env).1,
      c = .createRepository none ∨
      c = .createRepository
            (some (ignoreAWS (mergeTags env.defaultTags env.resourceTags))) ∨
      c = .updateTags (mergeTags env.defaultTags env.resourceTags) ∨
      c = .read := by
  intro c hc
  simp only [resourceRepositoryCreate] at hc
  iterate 8 (all_goals try split at hc)
  all_goals try simp at hc
  all_goals tauto

/-- The user-visible resource-only tags view computed by
`resourceRepositoryRead` (repository.go lines 199-214): the listed remote
tags after `IgnoreAWS`, the configured ignore predicate, and
`RemoveDefaultConfig`. -/
def readResourceTagsView (pred : String → Bool) (defaults remoteTags : TagList) :
    TagList :=
  removeDefaultConfig defaults (ignoreConfig pred (ignoreAWS remoteTags))

/-- C8: every tag set sent to the remote API has the ignore predicate
applied first — the tags embedded in a create request and the key/tag
payloads of `UpdateTags`' remove/add calls never contain a
platform-reserved key — and the user-visible resource-only tags view never
contains a key that is present only in the default-tag configuration. -/
theorem tag_invariants :
    (∀ (env : EcrCreateEnv) (tl : TagList),
      EcrCall.createRepository (some tl) ∈ (resourceRepositoryCreate env).1 →
      ∀ kv ∈ tl, isAWSTagKey kv.1 = false) ∧
    (∀ (env : SsmEnv) (identifier : String) (oldTags newTags : TagList)
        (ks : List String),
      SsmTagCall.removeTags ks ∈ (ssmUpdateTags env identifier oldTags newTags).1 →
      ∀ k ∈ ks, isAWSTagKey k = false) ∧
    (∀ (env : SsmEnv) (identifier : String) (oldTags newTags ts : TagList),
      SsmTagCall.addTags ts ∈ (ssmUpdateTags env identifier oldTags newTags).1 →
      ∀ kv ∈ ts, isAWSTagKey kv.1 = false) ∧
    (∀ (pred : String → Bool) (defaults resource : TagList) (k : String),
      (defaults.map Prod.fst).Nodup →
      k ∉ tagKeys resource → k ∈ tagKeys defaults →
      k ∉ tagKeys (readResourceTagsView pred defaults (mergeTags defaults resource))) := by
  refine ⟨?_, ?_, ?_, ?_⟩
  · intro env tl hmem kv hkv
    rcases ecrCreate_call_shapes env _ hmem with h | h | h | h
    · exact absurd h (by simp)
    · have htl : tl = ignoreAWS (mergeTags env.defaultTags env.resourceTags) := by
        simpa using h
      subst htl
      exact ignoreAWS_no_aws_key _ kv hkv
    · exact absurd h (by simp)
    · exact absurd h (by simp)
  · intro env identifier oldTags newTags ks hmem k hk
    simp only [ssmUpdateTags] at hmem
    iterate 6 (all_goals try split at hmem)
    all_goals simp at hmem
    all_goals subst hmem
    all_goals exact tagKeys_ignoreAWS_no_aws _ k hk
  · intro env identifier oldTags newTags ts hmem kv hkv
    simp only [ssmUpdateTags] at hmem
    iterate 6 (all_goals try split at hmem)
    all_goals simp at hmem
    all_goals subst hmem
    all_goals exact ignoreAWS_no_aws_key _ kv hkv
  · intro pred defaults resource k hnd hkr _hkd hview
    rcases List.mem_map.mp hview with ⟨kv, hkv, rfl⟩
    have hkeep := List.of_mem_filter hkv
    have hkv1 : kv ∈ ignoreConfig pred (ignoreAWS (mergeTags defaults resource)) :=
      List.mem_of_mem_filter hkv
    have hkv2 : kv ∈ ignoreAWS (mergeTags defaults resource) :=
      List.mem_of_mem_filter hkv1
    have hkv3 : kv ∈ mergeTags defaults resource := List.mem_of_mem_filter hkv2
    rcases List.mem_append.mp hkv3 with hr | hd
    · exact hkr (List.mem_map.mpr ⟨kv, hr, rfl⟩)
    · have hkvd : kv ∈ defaults := List.mem_of_mem_filter hd
      have hlk : defaults.lookup kv.1 = some kv.2 :=
        lookup_eq_some_of_mem_nodup hnd (by simpa using hkvd)
      simp [hlk] at hkeep

/-- C8 witness: the invariants at concrete inputs — a create embedding the
filtered tag `env=prod`, an `UpdateTags` removing key `env` and adding
`team=x`, and the read view with default `env=prod` and resource `team=x`
not containing the default-only key `env`. -/
theorem tag_invariants_witness :
    isAWSTagKey ("env", "prod").1 = false ∧
    isAWSTagKey "env" = false ∧
    isAWSTagKey ("team", "x").1 = false ∧
    "env" ∉ tagKeys (readResourceTagsView (fun _ => false) [("env", "prod")]
      (mergeTags [("env", "prod")] [("team", "x")])) :=
  ⟨tag_invariants.1
      ⟨true, [("env", "prod")], [("aws:src", "tf")], "repo",
        fun _ => .ok "repo" "arn", none⟩
      [("env", "prod")] (by decide) ("env", "prod") (by decide),
   tag_invariants.2.1 ⟨none, none⟩ "i" [("env", "prod")] [] ["env"]
      (by decide) "env" (by decide),
   tag_invariants.2.2.1 ⟨none, none⟩ "i" [] [("team", "x")] [("team", "x")]
      (by decide) ("team", "x") (by decide),
   tag_invariants.2.2.2 (fun _ => false) [("env", "prod")] [("team", "x")] "env"
      (by decide) (by decide) (by decide)⟩

/-! ## Delete flows
(ECR `resourceRepositoryDelete`, repository.go lines 281-313; ECS
`resourceTaskSetDelete`, part_003 lines 527-562; RAM
`resourceResourceShareDelete`, part_000 lines 192-214) -/

/-- AWS error code `ecr.ErrCodeRepositoryNotEmptyException`. -/
def repositoryNotEmptyException : String := "RepositoryNotEmptyException"

/-- AWS error code `ecs.ErrCodeTaskSetNotFoundException`. -/
def taskSetNotFoundException : String := "TaskSetNotFoundException"

/-- AWS error code `ram.ErrCodeUnknownResourceException`. -/
def unknownResourceException : String := "UnknownResourceException"

/-- Terminal outcome of a Delete entry point: success with empty
diagnostics, or an error diagnostic. -/
inductive DeleteResult where
  | success
  | errorDiag (msg : String)
deriving DecidableEq

/-- A remote call issued by `resourceRepositoryDelete`: the delete call, or
entry into the `RetryUntilNotFound` wait-until-deleted loop (the loop's
polls are abstracted into one marker whose final outcome comes from the
environment). -/
inductive EcrDeleteCall where
  | deleteRepository (force : Bool)
  | waitUntilNotFound
deriving DecidableEq

/-- Environment of one `resourceRepositoryDelete` invocation. -/
structure EcrDeleteEnv where
  id : String
  force : Bool
  deleteErr : Option AwsErr
  waitErr : Option AwsErr

/-- `resourceRepositoryDelete` (repository.go lines 281-313): issue the
delete; a not-found error code is success (idempotent); a not-empty error
code is a terminal error instructing use of `force_delete`; any other error
is a delete error; on success wait until the finder reports not-found. -/
def resourceRepositoryDelete (env : EcrDeleteEnv) :
    List EcrDeleteCall × DeleteResult :=
  match env.deleteErr with
  | some e =>
    if e.code = repositoryNotFoundException then
      ([.deleteRepository env.force], .success)
    else if e.code = repositoryNotEmptyException then
      ([.deleteRepository env.force],
       .errorDiag ("ECR Repository (" ++ env.id
         ++ ") not empty, consider using force_delete: " ++ e.msg))
    else
      ([.deleteRepository env.force],
       .errorDiag ("deleting ECR Repository (" ++ env.id ++ "): " ++ e.msg))
  | none =>
    match env.waitErr with
    | some e =>
      ([.deleteRepository env.force, .waitUntilNotFound],
       .errorDiag ("waiting for ECR Repository (" ++ env.id ++ ") delete: " ++ e.msg))
    | none => ([.deleteRepository env.force, .waitUntilNotFound], .success)

/-- A remote call issued by `resourceTaskSetDelete`. -/
inductive EcsDeleteCall where
  | deleteTaskSet (force : Bool)
  | waitDeleted
deriving DecidableEq

/-- Environment of one `resourceTaskSetDelete` invocation. The outcome of
`waitTaskSetDeleted` (not in this source set) is supplied by the
environment. -/
structure EcsDeleteEnv where
  id : String
  force : Bool
  deleteErr : Option AwsErr
  waitErr : Option AwsErr

/-- `resourceTaskSetDelete` (part_003 lines 527-562): parse the composite
identity; issue the delete; a task-set-not-found error code is success
(idempotent); any other error is a delete error; on success wait until
deleted, where a task-set-not-found error from the wait is again success. -/
def resourceTaskSetDelete (env : EcsDeleteEnv) :
    List EcsDeleteCall × DeleteResult :=
  match TaskSetParseID env.id with
  | .error msg =>
    ([], .errorDiag ("deleting ECS Task Set (" ++ env.id ++ "): " ++ msg))
  | .ok _ =>
    match env.deleteErr with
    | some e =>
      if e.code = taskSetNotFoundException then
        ([.deleteTaskSet env.force], .success)
      else
        ([.deleteTaskSet env.force],
         .errorDiag ("deleting ECS Task Set (" ++ env.id ++ "): " ++ e.msg))
    | none =>
      match env.waitErr with
      | some e =>
        if e.code = taskSetNotFoundException then
          ([.deleteTaskSet env.force, .waitDeleted], .success)
        else
          ([.deleteTaskSet env.force, .waitDeleted],
           .errorDiag ("deleting ECS Task Set (" ++ env.id
             ++ "): waiting for completion: " ++ e.msg))
      | none => ([.deleteTaskSet env.force, .waitDeleted], .success)

/-- A remote call issued by `resourceResourceShareDelete`. -/
inductive RamDeleteCall where
  | deleteResourceShare
  | waitDeleted
deriving DecidableEq

/-- Environment of one `resourceResourceShareDelete` invocation. The
outcome of `WaitResourceShareOwnedBySelfDeleted` (not in this source set)
is supplied by the environment. -/
structure RamDeleteEnv where
  id : String
  deleteErr : Option AwsErr
  waitErr : Option AwsErr

/-- `resourceResourceShareDelete` (part_000 lines 192-214): issue the
delete; an unknown-resource error code is success (idempotent); any other
error is a delete error; on success wait until deleted. -/
def resourceResourceShareDelete (env : RamDeleteEnv) :
    List RamDeleteCall × DeleteResult :=
  match env.deleteErr with
  | some e =>
    if e.code = unknownResourceException then
      ([.deleteResourceShare], .success)
    else
      ([.deleteResourceShare],
       .errorDiag ("deleting RAM Resource Share (" ++ env.id ++ "): " ++ e.msg))
  | none =>
    match env.waitErr with
    | some e =>
      ([.deleteResourceShare, .waitDeleted],
       .errorDiag ("waiting for RAM Resource Share (" ++ env.id ++ ") delete: " ++ e.msg))
    | none => ([.deleteResourceShare, .waitDeleted], .success)

/-- C6: Delete is idempotent with respect to absence: when the delete call
(or, for the task set, the delete-wait) fails with the service's not-found
error code, Delete returns success with no diagnostics and issues no
further remote calls for that resource. -/
theorem delete_idempotent_on_absence :
    (∀ (env : EcrDeleteEnv) (e : AwsErr), env.deleteErr = some e →
      e.code = repositoryNotFoundException →
      resourceRepositoryDelete env = ([.deleteRepository env.force], .success)) ∧
    (∀ (env : EcsDeleteEnv) (e : AwsErr) (p : String × String × String),
      TaskSetParseID env.id = .ok p → env.deleteErr = some e →
      e.code = taskSetNotFoundException →
      resourceTaskSetDelete env = ([.deleteTaskSet env.force], .success)) ∧
    (∀ (env : EcsDeleteEnv) (e : AwsErr) (p : String × String × String),
      TaskSetParseID env.id = .ok p → env.deleteErr = none →
      env.waitErr = some e → e.code = taskSetNotFoundException →
      resourceTaskSetDelete env =
        ([.deleteTaskSet env.force, .waitDeleted], .success)) ∧
    (∀ (env : RamDeleteEnv) (e : AwsErr), env.deleteErr = some e →
      e.code = unknownResourceException →
      resourceResourceShareDelete env = ([.deleteResourceShare], .success)) := by
  refine ⟨?_, ?_, ?_, ?_⟩
  · intro env e h1 h2
    simp [resourceRepositoryDelete, h1, h2]
  · intro env e p hp h1 h2
    simp [resourceTaskSetDelete, hp, h1, h2]
  · intro env e p hp h1 h2 h3
    simp [resourceTaskSetDelete, hp, h1, h2, h3]
  · intro env e h1 h2
    simp [resourceResourceShareDelete, h1, h2]

/-- C6 witness: idempotent deletes at concrete environments whose delete
call (or delete-wait) fails with the respective not-found codes. -/
theorem delete_idempotent_on_absence_witness :
    resourceRepositoryDelete
      ⟨"repo", false, some ⟨"RepositoryNotFoundException", "gone", false⟩, none⟩
      = ([.deleteRepository false], .success) ∧
    resourceTaskSetDelete
      ⟨"ts,svc,cl", false, some ⟨"TaskSetNotFoundException", "gone", false⟩, none⟩
      = ([.deleteTaskSet false], .success) ∧
    resourceTaskSetDelete
      ⟨"ts,svc,cl", false, none, some ⟨"TaskSetNotFoundException", "gone", false⟩⟩
      = ([.deleteTaskSet false, .waitDeleted], .success) ∧
    resourceResourceShareDelete
      ⟨"share", some ⟨"UnknownResourceException", "gone", false⟩, none⟩
      = ([.deleteResourceShare], .success) :=
  ⟨delete_idempotent_on_absence.1
      ⟨"repo", false, some ⟨"RepositoryNotFoundException", "gone", false⟩, none⟩
      ⟨"RepositoryNotFoundException", "gone", false⟩ rfl rfl,
   delete_idempotent_on_absence.2.1
      ⟨"ts,svc,cl", false, some ⟨"TaskSetNotFoundException", "gone", false⟩, none⟩
      ⟨"TaskSetNotFoundException", "gone", false⟩ ("ts", "svc", "cl") rfl rfl rfl,
   delete_idempotent_on_absence.2.2.1
      ⟨"ts,svc,cl", false, none, some ⟨"TaskSetNotFoundException", "gone", false⟩⟩
      ⟨"TaskSetNotFoundException", "gone", false⟩ ("ts", "svc", "cl") rfl rfl rfl rfl,
   delete_idempotent_on_absence.2.2.2
      ⟨"share", some ⟨"UnknownResourceException", "gone", false⟩, none⟩
      ⟨"UnknownResourceException", "gone", false⟩ rfl rfl⟩

/-- C7: a delete failing with the repository-not-empty error code yields a
terminal error whose message instructs use of `force_delete`, with exactly
one remote call made — the delete is not retried and the wait-until-deleted
loop is never entered. -/
theorem delete_not_empty_terminal (env : EcrDeleteEnv) (e : AwsErr)
    (h1 : env.deleteErr = some e) (h2 : e.code = repositoryNotEmptyException) :
    resourceRepositoryDelete env =
      ([.deleteRepository env.force],
       .errorDiag ("ECR Repository (" ++ env.id
         ++ ") not empty, consider using force_delete: " ++ e.msg)) := by
  simp [resourceRepositoryDelete, h1, h2, repositoryNotEmptyException,
    repositoryNotFoundException]

/-- C7 witness: the not-empty terminal error at a concrete environment. -/
theorem delete_not_empty_terminal_witness :
    resourceRepositoryDelete
      ⟨"repo", false, some ⟨"RepositoryNotEmptyException", "has images", false⟩, none⟩
      = ([.deleteRepository false],
         .errorDiag
           "ECR Repository (repo) not empty, consider using force_delete: has images") :=
  delete_not_empty_terminal
    ⟨"repo", false, some ⟨"RepositoryNotEmptyException", "has images", false⟩, none⟩
    ⟨"RepositoryNotEmptyException", "has images", false⟩ rfl rfl

/-! ## Read flows
(ECR `resourceRepositoryRead`, repository.go lines 169-223; ECS
`resourceTaskSetRead`, part_003 lines 381-427) -/

/-- Terminal outcome of a Read entry point. `removedFromState` models
`d.SetId("")` followed by returning empty diagnostics (the drop-from-state
signal); `crash` models a runtime panic. -/
inductive ReadResult where
  | errorDiag (msg : String)
  | removedFromState
  | okState (tagsView tagsAll : TagList)
  | okStateNoTags
  | crash
deriving DecidableEq

/-- Environment of one `resourceRepositoryRead` invocation. `find` is the
final outcome of `tfresource.RetryWhenNewResourceNotFound` around
`FindRepositoryByName` (that wrapper is not under this source set; per the
spec it retries a not-found result for a freshly-created resource within
the propagation timeout and otherwise passes the finder outcome through,
so its final outcome is supplied by the environment). -/
structure EcrReadEnv where
  id : String
  isNewResource : Bool
  partitionIsDefault : Bool
  defaultTags : TagList
  ignorePred : String → Bool
  find : Except FindErr Repository
  listTags : Except AwsErr TagList

/-- `resourceRepositoryRead` (repository.go lines 169-223): when the finder
reports a NotFound-kind error and the resource is not freshly created, drop
it from state and return success. The Go code performs the unchecked type
assertion `outputRaw.(*ecr.Repository)` next, with no intervening error
check: when any error survives the preceding branch (in particular a
not-found for a freshly-created resource), `outputRaw` is a nil interface
and the assertion panics — modelled as `.crash`. Otherwise list the tags;
a partition-unsupported listing failure outside the default partition
returns success without tag views; any other listing failure is an error;
on success the resource-only view removes the default-config pairs. -/
def resourceRepositoryRead (env : EcrReadEnv) : ReadResult :=
  match env.find with
  | .error e =>
    if !env.isNewResource && e.isNotFoundKind then .removedFromState
    else .crash
  | .ok _repository =>
    match env.listTags with
    | .error e =>
      if !env.partitionIsDefault && e.isoUnsupported then .okStateNoTags
      else .errorDiag ("listing tags for ECR Repository (" ++ env.id ++ "): " ++ e.msg)
    | .ok remoteTags =>
      .okState (readResourceTagsView env.ignorePred env.defaultTags remoteTags)
        (ignoreConfig env.ignorePred (ignoreAWS remoteTags))

/-- AWS error code `ecs.ErrCodeClusterNotFoundException`. -/
def clusterNotFoundException : String := "ClusterNotFoundException"

/-- AWS error code `ecs.ErrCodeServiceNotFoundException`. -/
def serviceNotFoundException : String := "ServiceNotFoundException"

/-- A task-set record as returned by `DescribeTaskSets`. -/
structure TaskSetRecord where
  id : String
  tags : TagList
deriving DecidableEq

/-- Result of one `DescribeTaskSets` remote call. -/
inductive DescribeTSResult where
  | errCall (e : AwsErr)
  | ok (taskSets : List TaskSetRecord)

/-- Environment of one `resourceTaskSetRead` invocation: outcomes of the
describe call with `Include=TAGS` and of its retry without tags. -/
structure EcsReadEnv where
  id : String
  isNewResource : Bool
  defaultTags : TagList
  ignorePred : String → Bool
  describeWithTags : DescribeTSResult
  describeWithoutTags : DescribeTSResult

/-- `resourceTaskSetRead` (part_003 lines 381-427): parse the composite
identity; describe with tags included; when the call fails with a
cluster/service/task-set not-found code and the resource is not freshly
created, drop it from state; when it fails with the partition-unsupported
signature, retry the describe without tags; any remaining error is a read
error; an empty task-set list is an error for a freshly-created resource
and a drop-from-state otherwise; else project the first record. -/
def resourceTaskSetRead (env : EcsReadEnv) : ReadResult :=
  match TaskSetParseID env.id with
  | .error msg => .errorDiag ("reading ECS Task Set (" ++ env.id ++ "): " ++ msg)
  | .ok _ =>
    let out1 := env.describeWithTags
    let droppedByCode : Bool :=
      match out1 with
      | .errCall e =>
        !env.isNewResource &&
          (e.code = clusterNotFoundException || e.code = serviceNotFoundException
            || e.code = taskSetNotFoundException)
      | .ok _ => false
    if droppedByCode then .removedFromState
    else
      let out2 :=
        match out1 with
        | .errCall e => if e.isoUnsupported then env.describeWithoutTags else out1
        | .ok _ => out1
      match out2 with
      | .errCall e =>
        .errorDiag ("reading ECS Task Set (" ++ env.id ++ "): " ++ e.msg)
      | .ok taskSets =>
        match taskSets with
        | [] =>
          if env.isNewResource then
            .errorDiag ("reading ECS Task Set (" ++ env.id
              ++ "): empty output after creation")
          else .removedFromState
        | taskSet :: _ =>
          .okState
            (readResourceTagsView env.ignorePred env.defaultTags taskSet.tags)
            (ignoreConfig env.ignorePred (ignoreAWS taskSet.tags))

/-- Read drop-from-state behaviour that does hold: a NotFound-kind finder
outcome for a repository that is not freshly created, and a not-found code
or empty result for a task set that is not freshly created, each clear the
identity and return success; an empty task-set result for a freshly-created
task set is surfaced as an error. -/
theorem read_not_found_drop_behaviour :
    (∀ (env : EcrReadEnv) (e : FindErr), env.find = .error e →
      env.isNewResource = false → e.isNotFoundKind = true →
      resourceRepositoryRead env = .removedFromState) ∧
    (∀ (env : EcsReadEnv) (p : String × String × String),
      TaskSetParseID env.id = .ok p → env.isNewResource = false →
      env.describeWithTags = .ok [] →
      resourceTaskSetRead env = .removedFromState) ∧
    (∀ (env : EcsReadEnv) (p : String × String × String),
      TaskSetParseID env.id = .ok p → env.isNewResource = true →
      env.describeWithTags = .ok [] →
      resourceTaskSetRead env =
        .errorDiag ("reading ECS Task Set (" ++ env.id
          ++ "): empty output after creation")) := by
  refine ⟨?_, ?_, ?_⟩
  · intro env e h1 h2 h3
    simp [resourceRepositoryRead, h1, h2, h3]
  · intro env p hp h1 h2
    simp [resourceTaskSetRead, hp, h1, h2]
  · intro env p hp h1 h2
    simp [resourceTaskSetRead, hp, h1, h2]

/-- C5: at the failing input — a freshly-created repository whose finder
still reports not-found once the retry wrapper gives up —
`resourceRepositoryRead` reaches the unchecked type assertion
`outputRaw.(*ecr.Repository)` on a nil interface (the Go code has no error
check between the non-new-resource branch and the assertion) and panics
instead of surfacing an error diagnostic. -/
theorem ecr_read_new_resource_not_found_crash :
    resourceRepositoryRead
      ⟨"repo", true, true, [], fun _ => false, .error .notFound, .ok []⟩ = .crash := rfl

/-! ## Retry/Waiter engine

The `tfresource` polling engine (`RetryWhen`, `RetryUntilNotFound`) is not
under this source set and is modelled from the spec (§4.3): the
caller-supplied deadline is the number of polls the time budget allows
(timeout divided by the poll interval), each poll consumes one unit of
budget, and the loop is structurally recursive on the remaining budget, so
every wait terminates by construction. -/

/-- Modelled from the spec: outcome of one probe of a pending remote
operation. -/
inductive OperationOutcome (α : Type) where
  | success (state : α)
  | notFound
  | retryableFailure (reason : String)
  | terminalFailure (reason : String)

/-- Modelled from the spec: result of a wait — success, a distinguished
timed-out error carrying the last observed state, or a terminal failure. -/
inductive WaitResult (α : Type) where
  | succeeded (state : α)
  | timedOut (lastObserved : Option String)
  | failed (reason : String)

/-- Modelled from the spec (§4.3, retry-when shape): retry a mutating call
while the classifier says its error is transient; a non-transient error
fails immediately; an exhausted budget yields the timed-out error carrying
the last observed failure. -/
def retryWhen {α : Type} (call : Nat → Except AwsErr α)
    (retryable : AwsErr → Bool) : Nat → Nat → WaitResult α
  | 0, n =>
    match call n with
    | .ok a => .succeeded a
    | .error e =>
      if retryable e then .timedOut (some e.msg) else .failed e.msg
  | b + 1, n =>
    match call n with
    | .ok a => .succeeded a
    | .error e =>
      if retryable e then retryWhen call retryable b (n + 1) else .failed e.msg

/-- Modelled from the spec (§4.3, wait-until-deleted shape): poll until the
probe reports not-found (the success condition for deletion waits); a
terminal failure stops immediately; a still-present resource or a
retryable failure is polled again within budget, and an exhausted budget
yields the timed-out error carrying the last observed state. -/
def retryUntilNotFound {α : Type} (probe : Nat → OperationOutcome α) :
    Nat → Nat → WaitResult Unit
  | 0, n =>
    match probe n with
    | .notFound => .succeeded ()
    | .terminalFailure r => .failed r
    | .success _ => .timedOut (some "still present")
    | .retryableFailure r => .timedOut (some r)
  | b + 1, n =>
    match probe n with
    | .notFound => .succeeded ()
    | .terminalFailure r => .failed r
    | .success _ => retryUntilNotFound probe b (n + 1)
    | .retryableFailure _ => retryUntilNotFound probe b (n + 1)

/-- AWS error code `ecs.ErrCodeInvalidParameterException`. -/
def invalidParameterException : String := "InvalidParameterException"

/-- Whether `pat` occurs at the start of `text`. -/
def isSubListStart : List Char → List Char → Bool
  | [], _ => true
  | _ :: _, [] => false
  | p :: ps, t :: ts => p == t && isSubListStart ps ts

/-- Whether `pat` occurs anywhere in `text` (the substring test of
`tfawserr.ErrMessageContains`). -/
def containsSub (pat : List Char) : List Char → Bool
  | [] => pat.isEmpty
  | c :: rest => isSubListStart pat (c :: rest) || containsSub pat rest

/-- The retry classifier of `retryTaskSetCreate` (part_003 lines 579-585):
cluster/service/task-set not-found error codes, and the invalid-parameter
error whose message contains "does not have an associated load balancer",
are transient. -/
def taskSetCreateRetryable (e : AwsErr) : Bool :=
  (e.code = clusterNotFoundException || e.code = serviceNotFoundException
    || e.code = taskSetNotFoundException)
  || (e.code = invalidParameterException &&
      containsSub "does not have an associated load balancer".data e.msg.data)

/-- `retryTaskSetCreate` (part_003 lines 574-594): the create call wrapped
in the retry-when engine under the propagation-plus-create time budget,
with `taskSetCreateRetryable` as classifier. -/
def retryTaskSetCreateWait (budget : Nat)
    (call : Nat → Except AwsErr CreateCallResult) : WaitResult CreateCallResult :=
  retryWhen call taskSetCreateRetryable budget 0

/-- Classification of a finder outcome as a wait probe (the delete wait of
`resourceRepositoryDelete` polls `FindRepositoryByName`): a found record is
a success (still present), a NotFound-kind error is confirmed absence, any
other finder error is terminal. -/
def findOutcome (name : String) (resp : DescribeResult) :
    OperationOutcome Repository :=
  match FindRepositoryByName name resp with
  | .ok r => .success r
  | .error e => if e.isNotFoundKind then .notFound else .terminalFailure "find error"

/-- The wait-until-deleted loop of `resourceRepositoryDelete`
(repository.go lines 304-310): poll the finder until not-found within the
delete timeout. -/
def ecrDeleteWait (budget : Nat) (name : String)
    (remote : Nat → DescribeResult) : WaitResult Unit :=
  retryUntilNotFound (fun n => findOutcome name (remote n)) budget 0

/-- A retry-when loop whose call always fails with a retryable-classified
error times out with the last observed failure. -/
theorem retryWhen_always_retryable_timedOut {α : Type}
    (call : Nat → Except AwsErr α) (retryable : AwsErr → Bool)
    (errs : Nat → AwsErr) (hcall : ∀ n, call n = .error (errs n))
    (hret : ∀ n, retryable (errs n) = true) :
    ∀ (budget start : Nat),
      retryWhen call retryable budget start = .timedOut (some (errs (start + budget)).msg) := by
  intro budget
  induction budget with
  | zero =>
    intro start
    simp [retryWhen, hcall start, hret start]
  | succ b ih =>
    intro start
    have heq : start + (b + 1) = (start + 1) + b := by omega
    rw [heq]
    simpa [retryWhen, hcall start, hret start] using ih (start + 1)

/-- A wait-until-deleted loop whose probe always reports the resource as
still present times out. -/
theorem retryUntilNotFound_always_present_timedOut {α : Type}
    (probe : Nat → OperationOutcome α) (states : Nat → α)
    (hprobe : ∀ n, probe n = .success (states n)) :
    ∀ (budget start : Nat),
      retryUntilNotFound probe budget start = .timedOut (some "still present") := by
  intro budget
  induction budget with
  | zero =>
    intro start
    simp [retryUntilNotFound, hprobe start]
  | succ b ih =>
    intro start
    simpa [retryUntilNotFound, hprobe start] using ih (start + 1)

/-- A wait loop whose probe always reports a retryable failure times out
with the last observed reason. -/
theorem retryUntilNotFound_always_retryable_timedOut {α : Type}
    (probe : Nat → OperationOutcome α) (reasons : Nat → String)
    (hprobe : ∀ n, probe n = .retryableFailure (reasons n)) :
    ∀ (budget start : Nat),
      retryUntilNotFound probe budget start = .timedOut (some (reasons (start + budget))) := by
  intro budget
  induction budget with
  | zero =>
    intro start
    simp [retryUntilNotFound, hprobe start]
  | succ b ih =>
    intro start
    have heq : start + (b + 1) = (start + 1) + b := by omega
    rw [heq]
    simpa [retryUntilNotFound, hprobe start] using ih (start + 1)

/-- C9: every wait/retry operation runs under a caller-supplied deadline
(a poll budget) and terminates — the engines are structurally recursive on
the remaining budget, so no invocation blocks indefinitely — and a probe
that keeps returning a retryable outcome makes the operation return the
distinguished timed-out error once the budget expires: for the generic
retry-when and wait-until-deleted engines, for `retryTaskSetCreate`'s
wrapper with its transient-error classifier, and for the delete wait of
`resourceRepositoryDelete` polling a finder that keeps seeing the
resource. -/
theorem waiter_deadline_timeout :
    (∀ (budget : Nat) (call : Nat → Except AwsErr Unit)
        (retryable : AwsErr → Bool) (errs : Nat → AwsErr),
      (∀ n, call n = .error (errs n)) → (∀ n, retryable (errs n) = true) →
      retryWhen call retryable budget 0 = .timedOut (some (errs budget).msg)) ∧
    (∀ (budget : Nat) (probe : Nat → OperationOutcome Repository)
        (reasons : Nat → String),
      (∀ n, probe n = .retryableFailure (reasons n)) →
      retryUntilNotFound probe budget 0 = .timedOut (some (reasons budget))) ∧
    (∀ (budget : Nat) (call : Nat → Except AwsErr CreateCallResult)
        (errs : Nat → AwsErr),
      (∀ n, call n = .error (errs n)) →
      (∀ n, taskSetCreateRetryable (errs n) = true) →
      retryTaskSetCreateWait budget call = .timedOut (some (errs budget).msg)) ∧
    (∀ (budget : Nat) (name : String) (remote : Nat → DescribeResult)
        (r : Repository),
      (∀ n, remote n = .ok [some r]) → r.repositoryName = name →
      ecrDeleteWait budget name remote = .timedOut (some "still present")) := by
  refine ⟨?_, ?_, ?_, ?_⟩
  · intro budget call retryable errs hcall hret
    simpa using retryWhen_always_retryable_timedOut call retryable errs hcall hret budget 0
  · intro budget probe reasons hprobe
    simpa using retryUntilNotFound_always_retryable_timedOut probe reasons hprobe budget 0
  · intro budget call errs hcall hret
    simpa [retryTaskSetCreateWait] using
      retryWhen_always_retryable_timedOut call taskSetCreateRetryable errs hcall hret budget 0
  · intro budget name remote r hremote hname
    have hprobe : ∀ n, (fun n => findOutcome name (remote n)) n = .success r := by
      intro n
      simp [hremote n, findOutcome, FindRepositoryByName, FindRepository, hname]
    simpa [ecrDeleteWait] using
      retryUntilNotFound_always_present_timedOut _ (fun _ => r) hprobe budget 0

/-- C9 witness: the timeout outcomes at concrete budgets — an
always-failing generic call, an always-retryable probe, an always
cluster-not-found task-set create, and a delete wait whose finder keeps
seeing the repository. -/
theorem waiter_deadline_timeout_witness :
    retryWhen (fun _ => (.error ⟨"Throttling", "rate", false⟩ : Except AwsErr Unit))
      (fun _ => true) 2 0 = .timedOut (some "rate") ∧
    retryUntilNotFound (fun _ => (.retryableFailure "lag" : OperationOutcome Repository))
      3 0 = .timedOut (some "lag") ∧
    retryTaskSetCreateWait 1
      (fun _ => .error ⟨"ClusterNotFoundException", "no cluster", false⟩)
      = .timedOut (some "no cluster") ∧
    ecrDeleteWait 2 "x" (fun _ => .ok [some ⟨"x", "arn"⟩])
      = .timedOut (some "still present") :=
  ⟨waiter_deadline_timeout.1 2
      (fun _ => (.error ⟨"Throttling", "rate", false⟩ : Except AwsErr Unit))
      (fun _ => true) (fun _ => ⟨"Throttling", "rate", false⟩) (fun _ => rfl) (fun _ => rfl),
   waiter_deadline_timeout.2.1 3 (fun _ => .retryableFailure "lag")
      (fun _ => "lag") (fun _ => rfl),
   waiter_deadline_timeout.2.2.1 1
      (fun _ => .error ⟨"ClusterNotFoundException", "no cluster", false⟩)
      (fun _ => ⟨"ClusterNotFoundException", "no cluster", false⟩)
      (fun _ => rfl) (fun _ => rfl),
   waiter_deadline_timeout.2.2.2 2 "x" (fun _ => .ok [some ⟨"x", "arn"⟩])
      ⟨"x", "arn"⟩ (fun _ => rfl) rfl⟩

/-! ## Elastic Beanstalk solution-stack data source (part_002) -/

/-- Outcome of the solution-stack data-source read: an error diagnostic, or
the selected stack name stored as both the identity and the `name`
attribute. -/
inductive SolutionStackResult where
  | errorDiag (msg : String)
  | okResult (id : String) (name : String)
deriving DecidableEq

/-- `mostRecentSolutionStack` (part_002 lines 90-93): despite its name, it
returns `solutionStacks[0]`, the first element of the slice; its callers
only invoke it on a non-empty slice. -/
def mostRecentSolutionStack (solutionStacks : List String)
    (h : solutionStacks ≠ []) : String :=
  solutionStacks.head h

/-- `dataSourceSolutionStackRead` (part_002 lines 42-88): list the
available solution stacks and keep those matching the configured name
regex (the compiled regex is an external collaborator, modelled as a
Boolean predicate on names); no match is an error; a single match is the
result; multiple matches select `mostRecentSolutionStack` when
`most_recent` is set and are an error otherwise. -/
def dataSourceSolutionStackRead (matchesRegex : String → Bool)
    (mostRecent : Bool) (solutionStacks : List String) : SolutionStackResult :=
  match solutionStacks.filter matchesRegex with
  | [] =>
    .errorDiag "Your query returned no results. Please change your search criteria and try again."
  | s :: rest =>
    if rest.isEmpty then .okResult s s
    else if mostRecent then
      let sel := mostRecentSolutionStack (s :: rest) (List.cons_ne_nil s rest)
      .okResult sel sel
    else
      .errorDiag "Your query returned more than one result. Please try a more specific search criteria, or set most_recent attribute to true."

/-- C10: `mostRecentSolutionStack` returns the first element of every
non-empty list, so when the data-source query matches two or more names
and `most_recent` is true, the selected result is simply the first match
in the remote response order — no recency comparison happens. -/
theorem most_recent_solution_stack_is_first :
    (∀ (l : List String) (h : l ≠ []), mostRecentSolutionStack l h = l.head h) ∧
    (∀ (matchesRegex : String → Bool) (solutionStacks : List String)
        (s : String) (rest : List String),
      solutionStacks.filter matchesRegex = s :: rest → rest ≠ [] →
      dataSourceSolutionStackRead matchesRegex true solutionStacks = .okResult s s) := by
  constructor
  · intro l h
    rfl
  · intro matchesRegex solutionStacks s rest hf hrest
    simp [dataSourceSolutionStackRead, hf, hrest, mostRecentSolutionStack]

/-- C10 witness: with stacks `["a", "b"]` both matching, `most_recent`
selects the first match `"a"`. -/
theorem most_recent_solution_stack_is_first_witness :
    mostRecentSolutionStack ["a", "b"] (by decide) = ("a" :: ["b"]).head (by decide) ∧
    dataSourceSolutionStackRead (fun _ => true) true ["a", "b"] = .okResult "a" "a" :=
  ⟨most_recent_solution_stack_is_first.1 ["a", "b"] (by decide),
   most_recent_solution_stack_is_first.2 (fun _ => true) ["a", "b"] "a" ["b"]
     rfl (by decide)⟩

end TfAws
